import Mathlib

/-!
Shallow embedding of the nRF5x BLE radio driver (`rubble-nrf5x/src/radio.rs`) and the
time abstraction (`rubble/src/time.rs`).

The driver manipulates a memory-mapped register block and two packet buffers; the radio
peripheral runs autonomously once triggered.  We embed:

* the register fields that the driver code under verification reads or writes, as a
  record `Regs` (fields not touched by the verified paths are omitted);
* the peripheral's hardware `STATE` register as an inductive `HwState`;
* the driver state `BleRadio` (the `advertising` flag, the registers, the TX buffer and
  the optional RX-buffer slot), buffers as lists of bytes;
* each driver function as a Lean function on `BleRadio` that additionally yields a
  trace of `Action`s (register writes, task triggers, fences, busy-waits, callbacks),
  so that claims about control flow (what is written, in which order, and what is never
  done) are expressible;
* panics (failed `assert!`/`unwrap`) and busy-wait loops that would not exit as `none`
  of an `Option` result.

Busy-wait loops on hardware bits are modelled through the hardware contract: the wait
on `events_disabled` after a `tasks_disable` trigger completes with the peripheral
disabled and the event raised (the loop body is empty, so this is its net effect); the
wait on the `STATE` register in `configure_receiver` exits at the first sampled state
that fails the loop condition, the sample being an oracle argument (`txExit`).

Note on names: the hardware's address-prefix registers (`PREFIX0` fields `AP0`/`AP1` in
the source) are rendered `ap0`/`ap1` here.
-/

namespace Rubble

/-! ## Time abstraction (`rubble/src/time.rs`) -/

/-- `rubble::time` sets `Duration = fugit::Duration<u32, 1, 1_000_000>`: a fixed-point
duration counting ticks of 1 µs in a `u32`.  At a 1 MHz tick rate `to_micros` returns
the tick count itself. -/
structure Duration where
  ticks : Nat
deriving DecidableEq, Repr

/-- `fugit::Duration::<u32, 1, 1_000_000>::micros(n)`: `n` one-microsecond ticks. -/
def Duration.micros (n : Nat) : Duration := ⟨n⟩

/-- `fugit::Duration::<u32, 1, 1_000_000>::to_micros()`: exact at 1 MHz resolution. -/
def Duration.to_micros (d : Duration) : Nat := d.ticks

/-- `pub const T_IFS: Duration = Duration::micros(150);` (`rubble/src/time.rs:13`). -/
def T_IFS : Duration := Duration.micros 150

/-! ## Hardware state and registers -/

/-- The radio peripheral's `STATE` register values. -/
inductive HwState
  | disabled
  | rxRu
  | rxIdle
  | rx
  | txRu
  | txIdle
  | tx
deriving DecidableEq, Repr

/-- `state().is_disabled()` -/
def HwState.is_disabled : HwState → Bool
  | .disabled => true
  | _ => false

/-- `state().is_tx()` -/
def HwState.is_tx : HwState → Bool
  | .tx => true
  | _ => false

/-- `state().is_tx_ru()` -/
def HwState.is_tx_ru : HwState → Bool
  | .txRu => true
  | _ => false

/-- Where the `PACKETPTR` register points. -/
inductive PktPtr
  | unset
  | rxBuf
  | txBuf
deriving DecidableEq, Repr

/-- The register fields of the RADIO peripheral read or written by the verified driver
paths.  `events_disabled` is the `EVENTS_DISABLED` latch (set by hardware on completion
of a disable, reset by the CPU); `inten_disabled` is the `DISABLED` bit of
`INTENSET`/`INTENCLR`; `crcstatus` is the CRC-ok flag of the last reception. -/
structure Regs where
  pcnf0_s0len : Bool
  pcnf0_lflen : Nat
  pcnf0_s1len : Nat
  base0 : Nat
  base1 : Nat
  pfx0_ap0 : Nat
  pfx0_ap1 : Nat
  datawhiteiv : Nat
  crcinit : Nat
  frequency : Nat
  tifs : Nat
  packetptr : PktPtr
  txaddress : Nat
  rxaddresses_addr0 : Bool
  rxaddresses_addr1 : Bool
  shorts_ready_start : Bool
  shorts_end_disable : Bool
  shorts_disabled_txen : Bool
  inten_disabled : Bool
  events_disabled : Bool
  crcstatus : Bool
deriving DecidableEq, Repr

/-- Driver state: the `BleRadio` struct plus the peripheral state it owns.
`rx_buf` is the optional RX-buffer slot (`Option<&'static mut PacketBuffer>`). -/
structure BleRadio where
  advertising : Bool
  regs : Regs
  hwState : HwState
  tx_buf : List Nat
  rx_buf : Option (List Nat)
deriving DecidableEq, Repr

/-- Names of the configuration registers, used to tag write actions in traces. -/
inductive RegName
  | pcnf0
  | pcnf1
  | crccnf
  | crcpoly
  | base0
  | base1
  | pfx0
  | datawhiteiv
  | crcinit
  | frequency
  | tifs
  | packetptr
  | txaddress
  | rxaddresses
  | shorts
  | intenset
  | intenclr
deriving DecidableEq, Repr

/-- Observable steps of a driver function, recorded in order. -/
inductive Action
  | write (r : RegName)
  | resetEventsDisabled
  | taskDisable
  | taskRxen
  | taskTxen
  | waitEventsDisabled
  | spinNotTx
  | fenceAcquire
  | fenceRelease
  | callbackAdv
  | callbackData
deriving DecidableEq, Repr

/-! ## External values modelled from the spec

The channel types, the advertising access-address constant, the advertising CRC preset
and the header types live in the `rubble` core crate (`rubble::phy`, `rubble::link`),
whose source is not part of this tree; only `rubble/src/time.rs` is.  They are modelled
from the spec below. -/

/-- Modelled from the spec: `rubble::phy::AdvertisingChannel` is missing from the tree.
"advertising and data channel values map deterministically to a radio frequency offset
and a whitening initialization value"; the driver reads `channel.freq()` (in MHz) and
`channel.whitening_iv()`. -/
structure AdvertisingChannel where
  freq : Nat
  whitening_iv : Nat
deriving DecidableEq, Repr

/-- Modelled from the spec: `rubble::phy::DataChannel` is missing from the tree; same
interface as `AdvertisingChannel`. -/
structure DataChannel where
  freq : Nat
  whitening_iv : Nat
deriving DecidableEq, Repr

/-- Modelled from the spec: `rubble::link::advertising::ACCESS_ADDRESS` is missing from
the tree; the spec fixes "the canonical advertising address `0x8E89BED6`". -/
def ACCESS_ADDRESS : Nat := 0x8E89BED6

/-- Modelled from the spec: `rubble::link::advertising::CRC_PRESET` ("the fixed
advertising preset" CRC seed) is missing from the tree; BLE fixes it as `0x555555`. -/
def CRC_PRESET : Nat := 0x555555

/-- Modelled from the spec: `rubble::link::CRC_POLY` (the "fixed BLE CRC polynomial")
is missing from the tree; BLE fixes it as `0x100065B`. -/
def CRC_POLY : Nat := 0x100065B

/-- Modelled from the spec: `advertising::Header::parse` is missing from the tree; the
header is the little-endian `u16` formed from bytes 0 and 1 of the buffer. -/
def advHeaderParse (rb : List Nat) : Nat := rb.getD 0 0 % 256 + 256 * (rb.getD 1 0 % 256)

/-- Modelled from the spec: `advertising::Header::payload_length` is missing from the
tree; the spec stores "Length at offset 1" and the advertising length field is 6 bits
("Length = 6 bits, followed by 2 RFU bits"). -/
def advPayloadLength (rb : List Nat) : Nat := rb.getD 1 0 % 64

/-- Modelled from the spec: `data::Header::parse` is missing from the tree; the header
is the little-endian `u16` formed from bytes 0 and 1 of the buffer. -/
def dataHeaderParse (rb : List Nat) : Nat := rb.getD 0 0 % 256 + 256 * (rb.getD 1 0 % 256)

/-- Modelled from the spec: `data::Header::payload_length` is missing from the tree;
the spec stores "Length at offset 1" as a full byte ("Length = 8 bits"). -/
def dataPayloadLength (rb : List Nat) : Nat := rb.getD 1 0 % 256

/-- Modelled from the spec: a `data::Header` value handed to `transmit_data`; the
driver only calls `to_u16()` and `payload_length()` on it.  We carry the raw 16-bit
value; its low byte is the S0 byte and its high byte the payload length. -/
structure DataHeader where
  raw : Nat
deriving DecidableEq, Repr

/-- `header.to_u16()` -/
def DataHeader.to_u16 (h : DataHeader) : Nat := h.raw % 65536

/-- `header.payload_length()` (the `u16`'s high byte). -/
def DataHeader.payload_length (h : DataHeader) : Nat := h.raw / 256 % 256

/-! ## Payload slicing (`recv_interrupt`, radio.rs:312-314 and 326-328) -/

/-- `let pl_lim = cmp::min(2 + usize::from(header.payload_length()), rx_buf.len());` -/
def pl_lim (rb : List Nat) (claimed : Nat) : Nat := min (2 + claimed) rb.length

/-- Rust slice `&rb[2..p]`: defined iff `2 ≤ p ≤ rb.len()` (out of range panics). -/
def slice2 (rb : List Nat) (p : Nat) : Option (List Nat) :=
  if 2 ≤ p ∧ p ≤ rb.length then some ((rb.take p).drop 2) else none

/-! ## The driver functions

Each function returns the new driver state together with the trace of its observable
steps; `Option` captures panics (failed `assert!`, `unwrap()` on `None`, an out-of-range
slice) and busy-wait loops whose sampled exit state would not exit the loop. -/

/-- Reset values of the modelled registers (all fields reset to 0 on the nRF5x). -/
def Regs.reset : Regs where
  pcnf0_s0len := false
  pcnf0_lflen := 0
  pcnf0_s1len := 0
  base0 := 0
  base1 := 0
  pfx0_ap0 := 0
  pfx0_ap1 := 0
  datawhiteiv := 0
  crcinit := 0
  frequency := 0
  tifs := 0
  packetptr := .unset
  txaddress := 0
  rxaddresses_addr0 := false
  rxaddresses_addr1 := false
  shorts_ready_start := false
  shorts_end_disable := false
  shorts_disabled_txen := false
  inten_disabled := false
  events_disabled := false
  crcstatus := false

/-- `BleRadio::new` (radio.rs:75-185), restricted to the modelled registers.  `hw0` is
the peripheral state at entry (`assert!(radio.state().is_disabled())`); the nRF51 trim
loading, `mode`/`txpower`/`pcnf1`/`crccnf`/`crcpoly` writes touch no modelled field.
`BASE0` receives the advertising access address shifted up by 8 (a `u32` shift) and
`PREFIX0.AP0` its top byte; the `ready_start` and `end_disable` shortcuts are wired. -/
def BleRadio.new (hw0 : HwState) (tx rx : List Nat) : Option BleRadio :=
  if ¬ hw0.is_disabled then none
  else if ¬ (rx.length - 2 ≤ 255) then none  -- assert!(max_payload <= u8::MAX)
  else
    some
      { advertising := false
        regs :=
          { Regs.reset with
            base0 := ACCESS_ADDRESS * 2 ^ 8 % 2 ^ 32
            pfx0_ap0 := ACCESS_ADDRESS / 2 ^ 24 % 2 ^ 8
            shorts_ready_start := true
            shorts_end_disable := true }
        hwState := hw0
        tx_buf := tx
        rx_buf := some rx }

/-- `BleRadio::prepare_txrx_advertising` (radio.rs:349-383).  Acknowledges a left-over
disable event; when the peripheral is not disabled, triggers `TASKS_DISABLE` and waits
for `EVENTS_DISABLED` (by the hardware contract the wait completes with the peripheral
disabled and the event raised; the code does not acknowledge this event); asserts the
peripheral is disabled; then programs `PCNF0`, `DATAWHITEIV`, `CRCINIT` (advertising
preset) and `FREQUENCY`. -/
def prepare_txrx_advertising (s : BleRadio) (channel : AdvertisingChannel) :
    Option (BleRadio × List Action) :=
  let s := { s with advertising := true }
  let s := { s with regs.events_disabled := false }
  let (s, drainTrace) :=
    if s.hwState.is_disabled then (s, ([] : List Action))
    else
      ({ s with hwState := HwState.disabled, regs.events_disabled := true },
       [Action.taskDisable, Action.waitEventsDisabled])
  if ¬ s.hwState.is_disabled then none  -- assert!(self.state().is_disabled())
  else
    let s := { s with
      regs.pcnf0_s0len := true, regs.pcnf0_lflen := 8, regs.pcnf0_s1len := 0 }
    let s := { s with regs.datawhiteiv := channel.whitening_iv }
    let s := { s with regs.crcinit := CRC_PRESET }
    let s := { s with regs.frequency := (channel.freq - 2400) % 2 ^ 8 }
    some (s, [Action.resetEventsDisabled] ++ drainTrace ++
      [Action.write .pcnf0, Action.write .datawhiteiv, Action.write .crcinit,
       Action.write .frequency])

/-- `BleRadio::prepare_txrx_data` (radio.rs:385-409).  Programs `PCNF0`,
`DATAWHITEIV`, `CRCINIT` (masked to 24 bits) and `FREQUENCY`, then `BASE1` and
`PREFIX0.AP1` from the connection access address (the `PREFIX0` write resets `AP0`,
as a full-register write of an nRF register zeroes unspecified fields). -/
def prepare_txrx_data (s : BleRadio) (channel : DataChannel)
    (access_address crc_init : Nat) : BleRadio × List Action :=
  let s := { s with advertising := false }
  let s := { s with
    regs.pcnf0_s0len := true, regs.pcnf0_lflen := 8, regs.pcnf0_s1len := 0 }
  let s := { s with regs.datawhiteiv := channel.whitening_iv }
  let s := { s with regs.crcinit := crc_init % 2 ^ 24 }
  let s := { s with regs.frequency := (channel.freq - 2400) % 2 ^ 8 }
  let s := { s with regs.base1 := access_address * 2 ^ 8 % 2 ^ 32 }
  let s := { s with
    regs.pfx0_ap1 := access_address / 2 ^ 24 % 2 ^ 8, regs.pfx0_ap0 := 0 }
  (s, [Action.write .pcnf0, Action.write .datawhiteiv, Action.write .crcinit,
       Action.write .frequency, Action.write .base1, Action.write .pfx0])

/-- `RadioCmd` (consumed from `rubble::link`; variants and payloads per the source's
pattern matches and the spec). -/
inductive RadioCmd
  | Off
  | ListenAdvertising (channel : AdvertisingChannel)
  | ListenData (channel : DataChannel) (access_address : Nat) (crc_init : Nat)
      (timeout : Bool)

/-- `BleRadio::configure_receiver` (radio.rs:193-281).  `txExit` is the `STATE`
register sample at which the initial busy-wait (`while is_tx() || is_tx_ru()`) exits:
the loop exits exactly at a sample failing its condition, so a sample satisfying it
yields no terminating run (`none`).  The wait is only performed for `ListenData` with
the `timeout` flag unset.  Then: acquire fence; clear the `DISABLED` interrupt enable;
acknowledge, trigger and await a disable; dispatch on the command. -/
def configure_receiver (s : BleRadio) (cmd : RadioCmd) (txExit : HwState) :
    Option (BleRadio × List Action) :=
  let spin : Option (BleRadio × List Action) :=
    match cmd with
    | .ListenData _ _ _ timeout =>
      if ¬ timeout then
        if txExit.is_tx ∨ txExit.is_tx_ru then none
        else some ({ s with hwState := txExit }, [Action.spinNotTx])
      else some (s, [])
    | _ => some (s, [])
  match spin with
  | none => none
  | some (s, waitTrace) =>
    let s := { s with regs.inten_disabled := false }
    let s := { s with regs.events_disabled := false }
    -- tasks_disable, then wait: by the hardware contract the disable completes and
    -- raises EVENTS_DISABLED, which is then acknowledged
    let s := { s with hwState := HwState.disabled, regs.events_disabled := false }
    let preTrace := waitTrace ++
      [Action.fenceAcquire, Action.write .intenclr, Action.resetEventsDisabled,
       Action.taskDisable, Action.waitEventsDisabled, Action.resetEventsDisabled]
    match cmd with
    | .Off => some (s, preTrace)
    | .ListenAdvertising channel =>
      match prepare_txrx_advertising s channel with
      | none => none
      | some (s, prepTrace) =>
        match s.rx_buf with
        | none => none  -- self.rx_buf.as_mut().unwrap()
        | some _ =>
          let s := { s with regs.packetptr := PktPtr.rxBuf }
          let s := { s with regs.inten_disabled := true }
          let s := { s with regs.rxaddresses_addr0 := true,
                            regs.rxaddresses_addr1 := false }
          let s := { s with regs.shorts_ready_start := true,
                            regs.shorts_end_disable := true,
                            regs.shorts_disabled_txen := false }
          let s := { s with hwState := HwState.rxRu }
          some (s, preTrace ++ prepTrace ++
            [Action.write .packetptr, Action.write .intenset, Action.write .rxaddresses,
             Action.write .shorts, Action.fenceRelease, Action.taskRxen])
    | .ListenData channel access_address crc_init _ =>
      let (s, prepTrace) := prepare_txrx_data s channel access_address crc_init
      let s := { s with regs.tifs := T_IFS.to_micros }
      match s.rx_buf with
      | none => none  -- self.rx_buf.as_mut().unwrap()
      | some _ =>
        let s := { s with regs.packetptr := PktPtr.rxBuf }
        let s := { s with regs.inten_disabled := true }
        let s := { s with regs.rxaddresses_addr0 := false,
                          regs.rxaddresses_addr1 := true }
        let s := { s with hwState := HwState.rxRu }
        let s := { s with regs.shorts_end_disable := true,
                          regs.shorts_disabled_txen := true,
                          regs.shorts_ready_start := true }
        some (s, preTrace ++ prepTrace ++
          [Action.write .tifs, Action.write .packetptr, Action.write .intenset,
           Action.write .rxaddresses, Action.fenceRelease, Action.taskRxen,
           Action.write .shorts])

/-- `Transmitter::transmit_data` (radio.rs:475-507).
Writes the S0 byte and the payload length into the TX buffer, selects logical
transmit address 1, reprograms the packet pointer, inserts a release fence, and writes
the shortcut register (`ready_start` enabled, `end_disable` disabled; the full-register
write leaves `disabled_txen` at 0).  No busy-wait and no task trigger. -/
def transmit_data (s : BleRadio) (_access_address _crc_iv : Nat) (header : DataHeader)
    (_channel : DataChannel) : BleRadio × List Action :=
  let s := { s with tx_buf := (s.tx_buf.set 0 (header.to_u16 % 2 ^ 8)).set 1
                      header.payload_length }
  let s := { s with regs.txaddress := 1 }
  let s := { s with regs.packetptr := PktPtr.txBuf }
  let s := { s with regs.shorts_ready_start := true, regs.shorts_end_disable := false,
                    regs.shorts_disabled_txen := false }
  (s, [Action.write .txaddress, Action.write .packetptr, Action.fenceRelease,
       Action.write .shorts])

/-- The part of the driver state reachable by the link layer's packet-processing
callbacks: they receive `&mut BleRadio` through the `Transmitter` trait, whose methods
touch everything except the (taken) RX-buffer slot. -/
structure TxView where
  advertising : Bool
  regs : Regs
  hwState : HwState
  tx_buf : List Nat
deriving DecidableEq, Repr

/-- The link layer, as seen by the driver: the two packet-processing callbacks
(`process_adv_packet` / `process_data_packet`), each taking the timestamp, the
transmitter view, the parsed header, the payload slice and the CRC flag, and returning
the updated transmitter view and a `Cmd`.  `Cmd` is opaque to the driver. -/
structure LinkLayer (Cmd : Type) where
  process_adv_packet : Nat → TxView → Nat → List Nat → Bool → TxView × Cmd
  process_data_packet : Nat → TxView → Nat → List Nat → Bool → TxView × Cmd

/-- `TxView` of a driver state. -/
def BleRadio.txView (s : BleRadio) : TxView :=
  ⟨s.advertising, s.regs, s.hwState, s.tx_buf⟩

/-- Reassemble a driver state from the callback's view and the restored RX buffer. -/
def TxView.withRx (tv : TxView) (rb : List Nat) : BleRadio :=
  ⟨tv.advertising, tv.regs, tv.hwState, tv.tx_buf, some rb⟩

/-- `BleRadio::recv_interrupt` (radio.rs:288-335).  Returns `(state, result, trace)`;
`result = none` is the spurious-interrupt sentinel (`return None`).  In advertising
mode: assert the peripheral disabled, parse the advertising header, take the RX buffer,
clamp and slice the payload, run the advertising callback, restore the buffer.  In data
mode: first disable the `ready_start` shortcut (a `modify`, other shortcut bits kept),
assert not transmitting, then parse/clamp/slice/callback/restore likewise. -/
def recv_interrupt {Cmd : Type} (s : BleRadio) (timestamp : Nat) (ll : LinkLayer Cmd) :
    Option (BleRadio × Option Cmd × List Action) :=
  if s.regs.events_disabled = false then
    some (s, none, [])
  else
    let s := { s with regs.events_disabled := false }
    let crc_ok := s.regs.crcstatus
    if s.advertising then
      if ¬ s.hwState.is_disabled then none  -- assert!(self.state().is_disabled())
      else
        match s.rx_buf with
        | none => none  -- self.rx_buf.as_ref().unwrap() / .take().unwrap()
        | some rb =>
          let header := advHeaderParse rb
          let s := { s with rx_buf := none }
          match slice2 rb (pl_lim rb (advPayloadLength rb)) with
          | none => none  -- &rx_buf[2..pl_lim] out of range
          | some payload =>
            let (tv, cmd) :=
              ll.process_adv_packet timestamp s.txView header payload crc_ok
            some (tv.withRx rb, some cmd,
              [Action.fenceAcquire, Action.resetEventsDisabled, Action.callbackAdv])
    else
      let s := { s with regs.shorts_ready_start := false }  -- shorts.modify
      if s.hwState.is_tx then none  -- assert!(!self.state().is_tx())
      else
        match s.rx_buf with
        | none => none  -- self.rx_buf.as_ref().unwrap() / .take().unwrap()
        | some rb =>
          let header := dataHeaderParse rb
          let s := { s with rx_buf := none }
          match slice2 rb (pl_lim rb (dataPayloadLength rb)) with
          | none => none  -- &rx_buf[2..pl_lim] out of range
          | some payload =>
            let (tv, cmd) :=
              ll.process_data_packet timestamp s.txView header payload crc_ok
            some (tv.withRx rb, some cmd,
              [Action.fenceAcquire, Action.resetEventsDisabled, Action.write .shorts,
               Action.callbackData])

/-! ## Concrete sample values (used to instantiate theorems on closed inputs) -/

/-- A small concrete packet buffer. -/
def sampleBuf : List Nat := [0, 5, 10, 11, 12, 13, 14]

/-- A concrete advertising channel (channel 37: 2402 MHz, whitening IV 37). -/
def chA : AdvertisingChannel := ⟨2402, 37⟩

/-- A concrete data channel (channel 8: 2420 MHz, whitening IV 8). -/
def chD : DataChannel := ⟨2420, 8⟩

/-- A concrete driver state: disabled peripheral, both buffers present. -/
def sampleState : BleRadio where
  advertising := true
  regs := Regs.reset
  hwState := .disabled
  tx_buf := sampleBuf
  rx_buf := some sampleBuf

/-- A concrete link layer whose callbacks leave the transmitter untouched. -/
def nopLL : LinkLayer Nat where
  process_adv_packet := fun _ tv _ _ _ => (tv, 0)
  process_data_packet := fun _ tv _ _ _ => (tv, 1)

/-! ## Theorems -/

/-- C1: In `recv_interrupt`, for every received buffer and claimed payload length, the
payload slice handed to the link-layer callback exists (the slicing never panics),
starts at buffer offset 2, has length `min(claimed, capacity - 2)` — in particular
`capacity - 2` whenever the claim exceeds `capacity - 2` — and every byte of it is read
from inside the RX buffer (`pl_lim ≤ capacity`; element `i` of the slice is buffer
element `2 + i`). -/
theorem C1_payload_clamp (rb : List Nat) (claimed : Nat) (hcap : 2 ≤ rb.length) :
    ∃ payload, slice2 rb (pl_lim rb claimed) = some payload
      ∧ payload.length = min claimed (rb.length - 2)
      ∧ (rb.length - 2 < claimed → payload.length = rb.length - 2)
      ∧ pl_lim rb claimed ≤ rb.length
      ∧ ∀ i, i < payload.length → payload[i]? = rb[2 + i]? := by
  have hp : 2 ≤ pl_lim rb claimed ∧ pl_lim rb claimed ≤ rb.length := by
    unfold pl_lim; omega
  refine ⟨(rb.take (pl_lim rb claimed)).drop 2, ?_, ?_, ?_, hp.2, ?_⟩
  · unfold slice2
    exact if_pos hp
  · simp only [List.length_drop, List.length_take]
    unfold pl_lim at *
    omega
  · intro hgt
    simp only [List.length_drop, List.length_take]
    unfold pl_lim at *
    omega
  · intro i hi
    simp only [List.length_drop, List.length_take] at hi
    have hlt : 2 + i < pl_lim rb claimed := by
      unfold pl_lim at *
      omega
    rw [List.getElem?_drop, List.getElem?_take, if_pos hlt]

/-- Witness for C1 at a concrete buffer of capacity 7 and an over-claimed length 200:
the hypothesis `2 ≤ capacity` is discharged by `decide`. -/
theorem C1_payload_clamp_witness :
    2 ≤ sampleBuf.length ∧
      ∃ payload, slice2 sampleBuf (pl_lim sampleBuf 200) = some payload
        ∧ payload.length = min 200 (sampleBuf.length - 2)
        ∧ (sampleBuf.length - 2 < 200 → payload.length = sampleBuf.length - 2)
        ∧ pl_lim sampleBuf 200 ≤ sampleBuf.length
        ∧ ∀ i, i < payload.length → payload[i]? = sampleBuf[2 + i]? :=
  ⟨by decide, C1_payload_clamp sampleBuf 200 (by decide)⟩

/-- C10: `transmit_data` ignores its `access_address`, `crc_iv` and `channel`
parameters: from any driver state and for any header, any two argument triples yield
the identical resulting state (TX buffer included) and the identical trace of register
writes. -/
theorem C10_unused_args (s : BleRadio) (aa1 c1 aa2 c2 : Nat) (h : DataHeader)
    (ch1 ch2 : DataChannel) :
    transmit_data s aa1 c1 h ch1 = transmit_data s aa2 c2 h ch2 := rfl

/-- C8: when the `DISABLED` completion event has not fired, `recv_interrupt` returns
the sentinel `none` with the driver state completely unchanged and an empty action
trace (no acknowledgment, no register write, no callback). -/
theorem C8_spurious {Cmd : Type} (s : BleRadio) (ts : Nat) (ll : LinkLayer Cmd)
    (h : s.regs.events_disabled = false) :
    recv_interrupt s ts ll = some (s, none, []) := by
  unfold recv_interrupt
  simp [h]

/-- Witness for C8 on a concrete state (`sampleState` has the event latch cleared). -/
theorem C8_spurious_witness :
    sampleState.regs.events_disabled = false ∧
      recv_interrupt sampleState 7 nopLL = some (sampleState, none, []) :=
  ⟨rfl, C8_spurious sampleState 7 nopLL rfl⟩

/-- C2: whenever `recv_interrupt` is entered with a non-empty RX-buffer slot, every
return path — the spurious early return as well as the advertising-mode and data-mode
branches — leaves the slot non-empty again (the buffer is taken for the callback and
always restored). -/
theorem C2_rx_buf_restored {Cmd : Type} (s : BleRadio) (ts : Nat) (ll : LinkLayer Cmd)
    (hsome : s.rx_buf.isSome) :
    ∀ r ∈ recv_interrupt s ts ll, r.1.rx_buf.isSome := by
  obtain ⟨adv, regs, hw, txb, rxb⟩ := s
  obtain ⟨rb, hrb⟩ := Option.isSome_iff_exists.mp hsome
  subst hrb
  intro r hr
  rw [Option.mem_def] at hr
  unfold recv_interrupt at hr
  by_cases hev : regs.events_disabled = false
  · -- spurious path: state returned unchanged
    rw [if_pos hev] at hr
    cases hr
    rfl
  · rw [if_neg hev] at hr
    cases adv
    · -- data branch
      rw [if_neg (by decide : ¬ (false = true))] at hr
      dsimp only at hr
      by_cases htx : hw.is_tx = true
      · rw [if_pos htx] at hr
        exact Option.noConfusion hr
      · rw [if_neg htx] at hr
        cases hsl : slice2 rb (pl_lim rb (dataPayloadLength rb)) with
        | none => rw [hsl] at hr; exact Option.noConfusion hr
        | some pl =>
          rw [hsl] at hr
          cases hr
          rfl
    · -- advertising branch
      rw [if_pos rfl] at hr
      dsimp only at hr
      by_cases hdis : hw.is_disabled = true
      · rw [if_neg (not_not_intro hdis)] at hr
        cases hsl : slice2 rb (pl_lim rb (advPayloadLength rb)) with
        | none => rw [hsl] at hr; exact Option.noConfusion hr
        | some pl =>
          rw [hsl] at hr
          cases hr
          rfl
      · rw [if_pos hdis] at hr
        exact Option.noConfusion hr

/-- Witness for C2: a concrete advertising-mode state with a pending completion event;
the hypothesis (slot non-empty) is discharged by `decide`, and the invariant is checked
on the concrete run. -/
theorem C2_rx_buf_restored_witness :
    ({ sampleState with regs.events_disabled := true } : BleRadio).rx_buf.isSome ∧
      ∀ r ∈ recv_interrupt { sampleState with regs.events_disabled := true } 7 nopLL,
        r.1.rx_buf.isSome :=
  ⟨by decide,
   C2_rx_buf_restored { sampleState with regs.events_disabled := true } 7 nopLL
     (by decide)⟩

/-- C3 counterexample: from a state whose peripheral is actively receiving (hardware
state not disabled), `prepare_txrx_data` issues no disable command and performs no
wait — the drain the claim attributes to both prepare variants is absent from the data
variant, which reprograms the registers directly (the hardware state is untouched). -/
theorem C3_counterexample :
    ¬ ({ sampleState with hwState := HwState.rx } : BleRadio).hwState.is_disabled = true
      ∧ Action.taskDisable ∉
          (prepare_txrx_data { sampleState with hwState := HwState.rx } chD 1 2).2
      ∧ Action.waitEventsDisabled ∉
          (prepare_txrx_data { sampleState with hwState := HwState.rx } chD 1 2).2
      ∧ (prepare_txrx_data { sampleState with hwState := HwState.rx } chD 1 2).1.hwState
          = HwState.rx := by decide

/-- C3 amended: only `prepare_txrx_advertising` performs the drain: when the
peripheral is not already disabled it issues the disable command and waits for its
completion before reprogramming any register (the trace places `taskDisable` and the
wait before every register write), leaving the peripheral disabled.
`prepare_txrx_data` performs no drain at all (no disable command, no wait); its only
caller, `configure_receiver`, has already disabled the peripheral before invoking
it. -/
theorem C3_amended (s : BleRadio) (cha : AdvertisingChannel) (ch : DataChannel)
    (aa ci : Nat) (hnd : ¬ s.hwState.is_disabled = true) :
    (∀ r ∈ prepare_txrx_advertising s cha,
        r.2 = [Action.resetEventsDisabled, Action.taskDisable, Action.waitEventsDisabled,
               Action.write .pcnf0, Action.write .datawhiteiv, Action.write .crcinit,
               Action.write .frequency]
          ∧ r.1.hwState.is_disabled = true)
      ∧ Action.taskDisable ∉ (prepare_txrx_data s ch aa ci).2
      ∧ Action.waitEventsDisabled ∉ (prepare_txrx_data s ch aa ci).2 := by
  rw [Bool.not_eq_true] at hnd
  refine ⟨?_, ?_, ?_⟩
  · intro r hr
    rw [Option.mem_def] at hr
    unfold prepare_txrx_advertising at hr
    simp only [hnd, Bool.false_eq_true, if_false] at hr
    cases hr
    exact ⟨rfl, rfl⟩
  · simp [prepare_txrx_data]
  · simp [prepare_txrx_data]

/-- Witness for C3's amended claim on a concrete receiving state, with the hypothesis
(peripheral not disabled) discharged by `decide`. -/
theorem C3_amended_witness :
    ¬ ({ sampleState with hwState := HwState.rx } : BleRadio).hwState.is_disabled = true
      ∧ Action.taskDisable ∉
          (prepare_txrx_data { sampleState with hwState := HwState.rx } chD 3 4).2
      ∧ Action.waitEventsDisabled ∉
          (prepare_txrx_data { sampleState with hwState := HwState.rx } chD 3 4).2 :=
  ⟨by decide,
   (C3_amended { sampleState with hwState := HwState.rx } chA chD 3 4 (by decide)).2⟩

/-- C4: `transmit_data` does not block: it writes the S0 byte (the header's low byte)
at TX-buffer offset 0 and the payload length at offset 1, selects logical transmit
address 1, points the packet pointer at the TX buffer, inserts a release fence, and
then only writes the shortcut register (`ready_start` armed, `end_disable` cleared) —
the full trace is exactly these four steps, with no spin-wait and no ramp-up task. -/
theorem C4_transmit_data (s : BleRadio) (aa ci : Nat) (h : DataHeader)
    (ch : DataChannel) (hlen : 2 ≤ s.tx_buf.length) :
    ((transmit_data s aa ci h ch).1.tx_buf[0]? = some (h.to_u16 % 2 ^ 8))
      ∧ ((transmit_data s aa ci h ch).1.tx_buf[1]? = some h.payload_length)
      ∧ (transmit_data s aa ci h ch).1.regs.txaddress = 1
      ∧ (transmit_data s aa ci h ch).1.regs.packetptr = PktPtr.txBuf
      ∧ (transmit_data s aa ci h ch).1.regs.shorts_ready_start = true
      ∧ (transmit_data s aa ci h ch).1.regs.shorts_end_disable = false
      ∧ (transmit_data s aa ci h ch).2
          = [Action.write .txaddress, Action.write .packetptr, Action.fenceRelease,
             Action.write .shorts]
      ∧ Action.taskTxen ∉ (transmit_data s aa ci h ch).2
      ∧ Action.spinNotTx ∉ (transmit_data s aa ci h ch).2
      ∧ Action.waitEventsDisabled ∉ (transmit_data s aa ci h ch).2 := by
  obtain ⟨adv, regs, hw, txb, rxb⟩ := s
  match txb, hlen with
  | x :: y :: t, _ =>
    refine ⟨?_, ?_, rfl, rfl, rfl, rfl, rfl, ?_, ?_, ?_⟩ <;>
      simp [transmit_data]

/-- Witness for C4 on a concrete state and header, the TX-buffer-capacity hypothesis
discharged by `decide`. -/
theorem C4_transmit_data_witness :
    2 ≤ sampleState.tx_buf.length
      ∧ (((transmit_data sampleState 9 8 ⟨0x2605⟩ chD).1.tx_buf[0]?
            = some ((0x2605 : Nat) % 65536 % 2 ^ 8))
          ∧ ((transmit_data sampleState 9 8 ⟨0x2605⟩ chD).1.tx_buf[1]?
              = some ((0x2605 : Nat) / 256 % 256))
          ∧ (transmit_data sampleState 9 8 ⟨0x2605⟩ chD).1.regs.txaddress = 1
          ∧ (transmit_data sampleState 9 8 ⟨0x2605⟩ chD).1.regs.packetptr = PktPtr.txBuf
          ∧ (transmit_data sampleState 9 8 ⟨0x2605⟩ chD).1.regs.shorts_ready_start = true
          ∧ (transmit_data sampleState 9 8 ⟨0x2605⟩ chD).1.regs.shorts_end_disable = false
          ∧ (transmit_data sampleState 9 8 ⟨0x2605⟩ chD).2
              = [Action.write .txaddress, Action.write .packetptr, Action.fenceRelease,
                 Action.write .shorts]
          ∧ Action.taskTxen ∉ (transmit_data sampleState 9 8 ⟨0x2605⟩ chD).2
          ∧ Action.spinNotTx ∉ (transmit_data sampleState 9 8 ⟨0x2605⟩ chD).2
          ∧ Action.waitEventsDisabled ∉ (transmit_data sampleState 9 8 ⟨0x2605⟩ chD).2) :=
  ⟨by decide, C4_transmit_data sampleState 9 8 ⟨0x2605⟩ chD (by decide)⟩

/-- C5: `configure_receiver` with a `ListenData` command whose `timeout` flag is unset
never proceeds past its initial busy-wait while the peripheral is transmitting or
ramping up to transmit: a sampled state satisfying the loop condition yields no
terminating run, every terminating run exits the wait at a state that is neither, and
the wait is the first recorded action; with the flag set, and for `Off` and
`ListenAdvertising` commands, no such wait is performed at all. -/
theorem C5_tx_wait (s : BleRadio) (ch : DataChannel) (aa ci : Nat) (txExit : HwState)
    (cha : AdvertisingChannel) :
    ((txExit.is_tx = true ∨ txExit.is_tx_ru = true) →
        configure_receiver s (.ListenData ch aa ci false) txExit = none)
      ∧ (∀ r ∈ configure_receiver s (.ListenData ch aa ci false) txExit,
          txExit.is_tx = false ∧ txExit.is_tx_ru = false
            ∧ r.2.head? = some Action.spinNotTx)
      ∧ (∀ r ∈ configure_receiver s (.ListenData ch aa ci true) txExit,
          Action.spinNotTx ∉ r.2)
      ∧ (∀ r ∈ configure_receiver s .Off txExit, Action.spinNotTx ∉ r.2)
      ∧ (∀ r ∈ configure_receiver s (.ListenAdvertising cha) txExit,
          Action.spinNotTx ∉ r.2) := by
  refine ⟨?_, ?_, ?_, ?_, ?_⟩
  · rintro (h | h) <;> simp [configure_receiver, h]
  · intro r hr
    rw [Option.mem_def] at hr
    by_cases h1 : txExit.is_tx = true
    · simp [configure_receiver, h1] at hr
    · by_cases h2 : txExit.is_tx_ru = true
      · simp [configure_receiver, h2] at hr
      · rw [Bool.not_eq_true] at h1 h2
        refine ⟨h1, h2, ?_⟩
        cases hrx : s.rx_buf with
        | none => simp [configure_receiver, prepare_txrx_data, h1, h2, hrx] at hr
        | some rb =>
          simp [configure_receiver, prepare_txrx_data, h1, h2, hrx] at hr
          subst hr
          rfl
  · intro r hr
    rw [Option.mem_def] at hr
    cases hrx : s.rx_buf with
    | none => simp [configure_receiver, prepare_txrx_data, hrx] at hr
    | some rb =>
      simp [configure_receiver, prepare_txrx_data, hrx] at hr
      subst hr
      simp
  · intro r hr
    rw [Option.mem_def] at hr
    simp [configure_receiver] at hr
    subst hr
    simp
  · intro r hr
    rw [Option.mem_def] at hr
    cases hrx : s.rx_buf with
    | none =>
      simp [configure_receiver, prepare_txrx_advertising, HwState.is_disabled, hrx] at hr
    | some rb =>
      simp [configure_receiver, prepare_txrx_advertising, HwState.is_disabled, hrx] at hr
      subst hr
      simp

/-- Witness for C5: sampling the `STATE` register at `tx` satisfies the loop condition,
and indeed no terminating run of `configure_receiver` (ListenData, timeout unset)
exists for that sample. -/
theorem C5_tx_wait_witness :
    (HwState.tx.is_tx = true ∨ HwState.tx.is_tx_ru = true)
      ∧ configure_receiver sampleState (RadioCmd.ListenData chD 1 2 false) HwState.tx
          = none :=
  ⟨Or.inl rfl, (C5_tx_wait sampleState chD 1 2 HwState.tx chA).1 (Or.inl rfl)⟩

/-- C6: for every 32-bit access address `A`, `prepare_txrx_data` programs `BASE1` with
`A << 8` (as a `u32`, so the low 24 bits of `A` land in the register's upper 24 bits)
and `PREFIX0.AP1` with `A >> 24` (the top byte); and `new` applies the same split to
the canonical advertising address: `BASE0` receives `0x8E89BED6 << 8` (the `u32` value
`0x89BED600`) and `PREFIX0.AP0` receives `0x8E`. -/
theorem C6_access_address_split (A : Nat) (hA : A < 2 ^ 32) (s : BleRadio)
    (ch : DataChannel) (ci : Nat) (hw0 : HwState) (tx rx : List Nat) :
    ((prepare_txrx_data s ch A ci).1.regs.base1 = A * 2 ^ 8 % 2 ^ 32
      ∧ (prepare_txrx_data s ch A ci).1.regs.base1 / 2 ^ 8 = A % 2 ^ 24
      ∧ (prepare_txrx_data s ch A ci).1.regs.pfx0_ap1 = A / 2 ^ 24)
      ∧ (∀ r ∈ BleRadio.new hw0 tx rx,
          r.regs.base0 = ACCESS_ADDRESS * 2 ^ 8 % 2 ^ 32
            ∧ r.regs.base0 = 0x89BED600
            ∧ r.regs.pfx0_ap0 = 0x8E) := by
  constructor
  · have hb : (prepare_txrx_data s ch A ci).1.regs.base1 = A * 2 ^ 8 % 2 ^ 32 := rfl
    have hp : (prepare_txrx_data s ch A ci).1.regs.pfx0_ap1 = A / 2 ^ 24 % 2 ^ 8 := rfl
    refine ⟨hb, ?_, ?_⟩
    · rw [hb]
      omega
    · rw [hp]
      omega
  · intro r hr
    rw [Option.mem_def] at hr
    unfold BleRadio.new at hr
    split_ifs at hr
    cases hr
    exact ⟨rfl, show ACCESS_ADDRESS * 2 ^ 8 % 2 ^ 32 = 0x89BED600 by decide,
      show ACCESS_ADDRESS / 2 ^ 24 % 2 ^ 8 = 0x8E by decide⟩

/-- Witness for C6 at the canonical advertising address itself, the 32-bit-range
hypothesis discharged by `decide`; `new` is run from a disabled peripheral. -/
theorem C6_access_address_split_witness :
    ACCESS_ADDRESS < 2 ^ 32
      ∧ (((prepare_txrx_data sampleState chD ACCESS_ADDRESS 5).1.regs.base1
            = ACCESS_ADDRESS * 2 ^ 8 % 2 ^ 32
          ∧ (prepare_txrx_data sampleState chD ACCESS_ADDRESS 5).1.regs.base1 / 2 ^ 8
              = ACCESS_ADDRESS % 2 ^ 24
          ∧ (prepare_txrx_data sampleState chD ACCESS_ADDRESS 5).1.regs.pfx0_ap1
              = ACCESS_ADDRESS / 2 ^ 24)
          ∧ (∀ r ∈ BleRadio.new HwState.disabled sampleBuf sampleBuf,
              r.regs.base0 = ACCESS_ADDRESS * 2 ^ 8 % 2 ^ 32
                ∧ r.regs.base0 = 0x89BED600
                ∧ r.regs.pfx0_ap0 = 0x8E)) :=
  ⟨by decide,
   C6_access_address_split ACCESS_ADDRESS (by decide) sampleState chD 5 HwState.disabled
     sampleBuf sampleBuf⟩

/-- C7: `T_IFS` is exactly 150 µs (`to_micros` is exact at the 1 MHz tick rate, no
sub-microsecond truncation), and every terminating `configure_receiver` run for a
`ListenData` command programs the hardware `TIFS` register with exactly
`T_IFS.to_micros() = 150`. -/
theorem C7_t_ifs (s : BleRadio) (ch : DataChannel) (aa ci : Nat) (tmo : Bool)
    (txExit : HwState) :
    T_IFS = Duration.micros 150 ∧ T_IFS.to_micros = 150
      ∧ ∀ r ∈ configure_receiver s (.ListenData ch aa ci tmo) txExit,
          r.1.regs.tifs = T_IFS.to_micros ∧ r.1.regs.tifs = 150 := by
  refine ⟨rfl, rfl, ?_⟩
  intro r hr
  rw [Option.mem_def] at hr
  cases tmo
  · by_cases h1 : txExit.is_tx = true
    · simp [configure_receiver, h1] at hr
    · by_cases h2 : txExit.is_tx_ru = true
      · simp [configure_receiver, h2] at hr
      · cases hrx : s.rx_buf with
        | none => simp [configure_receiver, prepare_txrx_data, h1, h2, hrx] at hr
        | some rb =>
          simp [configure_receiver, prepare_txrx_data, h1, h2, hrx] at hr
          subst hr
          exact ⟨rfl, rfl⟩
  · cases hrx : s.rx_buf with
    | none => simp [configure_receiver, prepare_txrx_data, hrx] at hr
    | some rb =>
      simp [configure_receiver, prepare_txrx_data, hrx] at hr
      subst hr
      exact ⟨rfl, rfl⟩

/-- Witness for C7 on a concrete terminating run of
`configure_receiver (ListenData, timeout set)`. -/
theorem C7_t_ifs_witness :
    ∃ r, configure_receiver sampleState (RadioCmd.ListenData chD 1 2 true)
          HwState.disabled = some r
      ∧ (r.1.regs.tifs = T_IFS.to_micros ∧ r.1.regs.tifs = 150) := by
  cases hc : configure_receiver sampleState (RadioCmd.ListenData chD 1 2 true)
      HwState.disabled with
  | none => exact absurd hc (by decide)
  | some r =>
    exact ⟨r, rfl, (C7_t_ifs sampleState chD 1 2 true HwState.disabled).2.2 r
      (by rw [Option.mem_def, hc])⟩

/-- The register state enumerated by the idempotence claim: the `advertising` flag,
the packet layout (`PCNF0`), the whitening seed, the CRC seed, the frequency, and the
data-mode `BASE1`/`PREFIX0.AP1` pair. -/
def prepReport (s : BleRadio) :=
  (s.advertising, s.regs.pcnf0_s0len, s.regs.pcnf0_lflen, s.regs.pcnf0_s1len,
   s.regs.datawhiteiv, s.regs.crcinit, s.regs.frequency, s.regs.base1, s.regs.pfx0_ap1)

/-- The state produced by `prepare_txrx_advertising` when the peripheral is already
disabled (no drain). -/
def advOnce (s : BleRadio) (cha : AdvertisingChannel) : BleRadio :=
  { s with advertising := true, regs.events_disabled := false,
           regs.pcnf0_s0len := true, regs.pcnf0_lflen := 8, regs.pcnf0_s1len := 0,
           regs.datawhiteiv := cha.whitening_iv, regs.crcinit := CRC_PRESET,
           regs.frequency := (cha.freq - 2400) % 2 ^ 8 }

/-- The state produced by `prepare_txrx_advertising` when it has to drain first. -/
def advDrained (s : BleRadio) (cha : AdvertisingChannel) : BleRadio :=
  { advOnce s cha with hwState := HwState.disabled, regs.events_disabled := true }

/-- Evaluation of `is_disabled` at the `disabled` literal. -/
theorem disabled_is_disabled : HwState.disabled.is_disabled = true := rfl

/-- Evaluation of `prepare_txrx_advertising` from an already-disabled peripheral. -/
theorem prepare_adv_eq_disabled (s : BleRadio) (cha : AdvertisingChannel)
    (hd : s.hwState.is_disabled = true) :
    prepare_txrx_advertising s cha = some (advOnce s cha,
      [Action.resetEventsDisabled, Action.write .pcnf0, Action.write .datawhiteiv,
       Action.write .crcinit, Action.write .frequency]) := by
  simp [prepare_txrx_advertising, advOnce, hd]

/-- Evaluation of `prepare_txrx_advertising` when it has to drain first. -/
theorem prepare_adv_eq_not_disabled (s : BleRadio) (cha : AdvertisingChannel)
    (hd : s.hwState.is_disabled = false) :
    prepare_txrx_advertising s cha = some (advDrained s cha,
      [Action.resetEventsDisabled, Action.taskDisable, Action.waitEventsDisabled,
       Action.write .pcnf0, Action.write .datawhiteiv, Action.write .crcinit,
       Action.write .frequency]) := by
  simp [prepare_txrx_advertising, advOnce, advDrained, disabled_is_disabled, hd]

/-- C9: the shared prepare setup is idempotent on the register state the claim
enumerates (packet layout, whitening seed, CRC seed, frequency, and for the data
variant also `BASE1`/`PREFIX0.AP1`) and on the `advertising` flag: a second call with
the same arguments reproduces the first call's values — for the data variant even the
whole driver state is reproduced exactly. -/
theorem C9_prepare_idempotent (s : BleRadio) (cha : AdvertisingChannel)
    (ch : DataChannel) (aa ci : Nat) :
    (∃ s1 t1 s2 t2, prepare_txrx_advertising s cha = some (s1, t1)
        ∧ prepare_txrx_advertising s1 cha = some (s2, t2)
        ∧ prepReport s2 = prepReport s1)
      ∧ (prepare_txrx_data (prepare_txrx_data s ch aa ci).1 ch aa ci).1
          = (prepare_txrx_data s ch aa ci).1 := by
  constructor
  · by_cases hd : s.hwState.is_disabled = true
    · exact ⟨_, _, _, _, prepare_adv_eq_disabled s cha hd,
        prepare_adv_eq_disabled (advOnce s cha) cha hd, rfl⟩
    · rw [Bool.not_eq_true] at hd
      exact ⟨_, _, _, _, prepare_adv_eq_not_disabled s cha hd,
        prepare_adv_eq_disabled (advDrained s cha) cha (by rfl), rfl⟩
  · rfl

end Rubble
